import Mathlib

/-!
Shallow embedding of the core logic of the wardrobe front-end:

* the client-side image compression pipeline (`compressImage`,
  `compressImages` in the image-compression utility module);
* the job-status polling loop (the `poll` body installed by `startPolling`
  in the page component);
* the HTTP error-message extraction shared by `generateMatchingSet` and
  `checkJobStatus` in the API module;
* the status-badge normalization of the `StatusDisplay` component.

Browser collaborators (FileReader, Image decoding, canvas encoding, fetch)
are modelled as explicit environment values supplied to the functions;
JavaScript numbers are modelled as exact rationals, byte payloads as lists
of naturals.
-/

/-- A `File` as the browser hands it to `compressImage`: raw byte content
plus name, MIME `type` string and last-modified timestamp. -/
structure FileModel where
  bytes : List Nat
  name : String
  type : String
  lastModified : Nat
deriving DecidableEq, Repr

/-- `file.size`: the byte length of the file. -/
def FileModel.size (f : FileModel) : Nat := f.bytes.length

/-- A decoded in-memory bitmap: the `img.width` / `img.height` the `Image`
element reports after a successful load. -/
structure Bitmap where
  width : ℚ
  height : ℚ
deriving DecidableEq, Repr

/-- An encoded blob produced by `canvas.toBlob`. -/
structure Blob where
  bytes : List Nat
deriving DecidableEq, Repr

/-- `blob.size`: the byte length of an encoded blob. -/
def Blob.size (b : Blob) : Nat := b.bytes.length

/-- One call to `canvas.toBlob`: the canvas dimensions at the time of the
call, the MIME type argument and the quality argument. -/
structure EncodeCall where
  width : ℚ
  height : ℚ
  mime : String
  quality : ℚ
deriving DecidableEq, Repr

/-- The browser facilities `compressImage` interacts with, for one input
file: whether `FileReader.readAsDataURL` succeeds, the decode result of the
`Image` element (`none` models `img.onerror`), whether
`canvas.getContext('2d')` yields a context, and the encoder behind
`canvas.toBlob` (`none` models a null blob callback argument). -/
structure ImageEnv where
  readOk : Bool
  decode : Option Bitmap
  ctxOk : Bool
  encode : EncodeCall → Option Blob

/-- Observable side activity of one `compressImage` run: whether the file
reader was started, whether an image decode was attempted, and the list of
`canvas.toBlob` calls in order. -/
structure CompressTrace where
  readAttempted : Bool
  decodeAttempted : Bool
  encodes : List EncodeCall
deriving DecidableEq, Repr

/-- `file.type || 'image/jpeg'`: the MIME type used for every encode and
for the produced `File`, falling back to JPEG when the type is empty. -/
def mimeOf (file : FileModel) : String :=
  if file.type = "" then "image/jpeg" else file.type

/-- `Math.min` on two numbers. -/
def ratMin (a b : ℚ) : ℚ := if a ≤ b then a else b

/-- `Math.max` on two numbers. -/
def ratMax (a b : ℚ) : ℚ := if b ≤ a then a else b

/-- The dimension computation of `compressImage`: when either dimension
exceeds its bound, both are scaled by `Math.min (maxWidth/width)
(maxHeight/height)`; otherwise they are left unchanged. -/
def resizeDims (width height maxWidth maxHeight : ℚ) : ℚ × ℚ :=
  if width > maxWidth ∨ height > maxHeight then
    let scaleFactor := ratMin (maxWidth / width) (maxHeight / height)
    (width * scaleFactor, height * scaleFactor)
  else
    (width, height)

/-- The first `canvas.toBlob` call of a run that decoded `img`: canvas
dimensions from `resizeDims`, the file MIME type (with JPEG fallback),
the policy quality. -/
def pass1Call (file : FileModel) (img : Bitmap) (maxWidth maxHeight quality : ℚ) : EncodeCall :=
  ⟨(resizeDims img.width img.height maxWidth maxHeight).1,
   (resizeDims img.width img.height maxWidth maxHeight).2, mimeOf file, quality⟩

/-- The second `canvas.toBlob` call of a run that decoded `img`: same
canvas and MIME type, quality `Math.max 0.3 (quality - 0.2)`. -/
def pass2Call (file : FileModel) (img : Bitmap) (maxWidth maxHeight quality : ℚ) : EncodeCall :=
  ⟨(resizeDims img.width img.height maxWidth maxHeight).1,
   (resizeDims img.width img.height maxWidth maxHeight).2, mimeOf file,
   ratMax 0.3 (quality - 0.2)⟩

/-- `compressImage`, instrumented with its trace.  Mirrors the promise
body: fast path on `file.size <= maxSizeMB * 1024 * 1024`; reader failure
rejects with `Failed to read file`; image load failure rejects with
`Failed to load image`; a missing 2d context rejects with
`Failed to get canvas context`; a null pass-1 blob rejects with
`Failed to compress image`; when the pass-1 blob is over budget and
`quality > 0.3`, one more encode runs at `max 0.3 (quality - 0.2)` whose
result is used, falling back to the pass-1 blob when it yields null.
`now` stands for `Date.now()`. -/
def compressImageRun (env : ImageEnv) (now : Nat) (file : FileModel)
    (maxWidth maxHeight quality maxSizeMB : ℚ) :
    Except String FileModel × CompressTrace :=
  if (file.size : ℚ) ≤ maxSizeMB * 1024 * 1024 then
    (.ok file, ⟨false, false, []⟩)
  else if env.readOk = false then
    (.error "Failed to read file", ⟨true, false, []⟩)
  else
    match env.decode with
    | none => (.error "Failed to load image", ⟨true, true, []⟩)
    | some img =>
      if env.ctxOk = false then
        (.error "Failed to get canvas context", ⟨true, true, []⟩)
      else
        match env.encode (pass1Call file img maxWidth maxHeight quality) with
        | none =>
          (.error "Failed to compress image",
           ⟨true, true, [pass1Call file img maxWidth maxHeight quality]⟩)
        | some blob =>
          if (blob.size : ℚ) > maxSizeMB * 1024 * 1024 ∧ quality > 0.3 then
            match env.encode (pass2Call file img maxWidth maxHeight quality) with
            | none =>
              (.ok ⟨blob.bytes, file.name, mimeOf file, now⟩,
               ⟨true, true, [pass1Call file img maxWidth maxHeight quality,
                             pass2Call file img maxWidth maxHeight quality]⟩)
            | some smallerBlob =>
              (.ok ⟨smallerBlob.bytes, file.name, mimeOf file, now⟩,
               ⟨true, true, [pass1Call file img maxWidth maxHeight quality,
                             pass2Call file img maxWidth maxHeight quality]⟩)
          else
            (.ok ⟨blob.bytes, file.name, mimeOf file, now⟩,
             ⟨true, true, [pass1Call file img maxWidth maxHeight quality]⟩)

/-- The value `compressImage` resolves or rejects with. -/
def compressImage (env : ImageEnv) (now : Nat) (file : FileModel)
    (maxWidth maxHeight quality maxSizeMB : ℚ) : Except String FileModel :=
  (compressImageRun env now file maxWidth maxHeight quality maxSizeMB).1

/-- The trace of one `compressImage` run. -/
def compressTrace (env : ImageEnv) (now : Nat) (file : FileModel)
    (maxWidth maxHeight quality maxSizeMB : ℚ) : CompressTrace :=
  (compressImageRun env now file maxWidth maxHeight quality maxSizeMB).2

/-- `compressImages`: compresses each file with the same options; the batch
promise rejects with the error of a failing item and otherwise resolves
with the in-order list of compressed files. -/
def compressImages (env : FileModel → ImageEnv) (now : Nat)
    (files : List FileModel) (maxWidth maxHeight quality maxSizeMB : ℚ) :
    Except String (List FileModel) :=
  files.mapM (fun file => compressImage (env file) now file maxWidth maxHeight quality maxSizeMB)

/-- The `output` field of a status response: `null`, a single URL string,
or an array of URL strings. -/
inductive JobOutput
  | single (url : String)
  | many (urls : List String)
deriving DecidableEq, Repr

/-- JavaScript truthiness of `response.data.output`: `null` and the empty
string are falsy, any array (even empty) is truthy. -/
def outputTruthy : Option JobOutput → Bool
  | none => false
  | some (.single url) => url ≠ ""
  | some (.many _) => true

/-- JavaScript truthiness of `response.data.error`: `null` and the empty
string are falsy. -/
def errorTruthy : Option String → Bool
  | none => false
  | some s => s ≠ ""

/-- The parts of one `StatusResponse` that the `poll` body reads: the
`data.status` tag, the top-level `message`, `data.output`, `data.error`. -/
structure StatusSnapshot where
  status : String
  message : String
  output : Option JobOutput
  error : Option String
deriving DecidableEq, Repr

/-- Outcome of one `checkJobStatus` call inside `poll`: a parsed response,
or a thrown error caught by the `catch` block with the shown message. -/
inductive PollResult
  | response (snap : StatusSnapshot)
  | failure (msg : String)
deriving DecidableEq, Repr

/-- The component state that `poll` mutates, plus `active`: whether the
polling session is still installed (`pollingIntervalRef.current` not yet
cleared / the session not yet returned from). -/
structure PollState where
  status : String
  statusMessage : String
  generatedImages : Option JobOutput
  error : Option String
  isGenerating : Bool
  active : Bool
deriving DecidableEq, Repr

/-- The terminal-status test of `poll`:
`['succeeded', 'failed', 'canceled'].includes(currentStatus)` — an exact,
case-sensitive string membership test. -/
def statusTerminal (s : String) : Bool :=
  s == "succeeded" || s == "failed" || s == "canceled"

/-- One execution of the `poll` body on the current component state:
on a response it sets `status` and `statusMessage`, records a truthy
`output` into `generatedImages`, then stops with `error` set when
`data.error` is truthy, then stops when the status tag is terminal;
on a thrown error it sets `error` and stops. -/
def stepPoll (st : PollState) (r : PollResult) : PollState :=
  match r with
  | .failure msg =>
    { st with error := some msg, isGenerating := false, active := false }
  | .response snap =>
    let st1 := { st with status := snap.status, statusMessage := snap.message }
    let st2 :=
      if outputTruthy snap.output then { st1 with generatedImages := snap.output } else st1
    if errorTruthy snap.error then
      { st2 with error := snap.error, isGenerating := false, active := false }
    else if statusTerminal snap.status then
      { st2 with isGenerating := false, active := false }
    else
      st2

/-- Whether processing poll outcome `r` clears the interval (ends the
session): a thrown error, a truthy `data.error`, or a terminal status. -/
def pollStops (r : PollResult) : Bool :=
  match r with
  | .failure _ => true
  | .response snap => errorTruthy snap.error || statusTerminal snap.status

/-- The component state when `startPolling` installs a session:
`isGenerating` was set by `handleSubmit`, the interval is active. -/
def initPollState : PollState :=
  { status := "", statusMessage := "", generatedImages := none, error := none,
    isGenerating := true, active := true }

/-- Runs a polling session against a scripted list of poll outcomes, one
outcome consumed per issued status request, stopping as soon as the
session is no longer active.  Returns the final state, the number of
status requests issued, and the number of `onUpdate` deliveries
(responses whose snapshot reached the state setters). -/
def runPollingFrom : PollState → List PollResult → PollState × Nat × Nat
  | st, [] => (st, 0, 0)
  | st, r :: rs =>
    if st.active then
      let st2 := stepPoll st r
      let rec2 := runPollingFrom st2 rs
      let upd := match r with | .response _ => 1 | .failure _ => 0
      (rec2.1, rec2.2.1 + 1, rec2.2.2 + upd)
    else
      (st, 0, 0)

/-- A whole polling session from the freshly installed state. -/
def runPolling (script : List PollResult) : PollState × Nat × Nat :=
  runPollingFrom initPollState script

/-- A status response carrying only a status tag: `message` empty,
`output` and `error` null. -/
def plainSnap (s : String) : StatusSnapshot :=
  { status := s, message := "", output := none, error := none }

/-- One HTTP response as the two API functions observe it: `response.ok`,
`response.status`, and the result of `response.json()` on the error path —
`none` when the body is absent or unparseable (the promise rejects),
`some m` when it parses to JSON whose `message` field is `m`
(`none` inside for an absent or null field, `some ""` for an empty one). -/
structure HttpResponse where
  ok : Bool
  status : Nat
  jsonMessage : Option (Option String)
deriving DecidableEq, Repr

/-- The error message both `generateMatchingSet` and `checkJobStatus`
throw on a non-ok response:
`errorData = await response.json().catch(() => ({ message: 'Unknown error' }))`
followed by
`errorData.message || 'HTTP error! status: ' + response.status`. -/
def httpErrorMessage (resp : HttpResponse) : String :=
  let errorDataMessage : Option String :=
    match resp.jsonMessage with
    | none => some "Unknown error"
    | some m => m
  match errorDataMessage with
  | some s => if s = "" then "HTTP error! status: " ++ toString resp.status else s
  | none => "HTTP error! status: " ++ toString resp.status

/-- The parts of a `GenerateMatchingSetResponse` body that the caller
reads: top-level `status`, `message`, and `data.prediction_id` /
`data.status`. -/
structure GenerateResponse where
  status : String
  message : String
  prediction_id : String
  dataStatus : String
deriving DecidableEq, Repr

/-- `generateMatchingSet`'s handling of the `/remix-images` response:
a non-ok response throws the extracted message, an ok response resolves
with the parsed body. -/
def generateMatchingSetResult (resp : HttpResponse) (body : GenerateResponse) :
    Except String GenerateResponse :=
  if resp.ok then .ok body else .error (httpErrorMessage resp)

/-- `checkJobStatus`'s handling of the `/status` response: identical error
path. -/
def checkJobStatusResult (resp : HttpResponse) (body : StatusSnapshot) :
    Except String StatusSnapshot :=
  if resp.ok then .ok body else .error (httpErrorMessage resp)

/-- ASCII lowering of one character, the behaviour of
`String.prototype.toLowerCase` on the ASCII status tags the service
emits. -/
def lowerChar (c : Char) : Char :=
  if 'A' ≤ c ∧ c ≤ 'Z' then Char.ofNat (c.toNat + 32) else c

/-- `status.toLowerCase()` on ASCII status strings. -/
def lowerString (s : String) : String :=
  ⟨s.data.map lowerChar⟩

/-- `StatusDisplay`'s `getStatusColor`: switches on
`status.toLowerCase()`. -/
def getStatusColor (status : String) : String :=
  match lowerString status with
  | "starting" => "bg-blue-500 text-blue-50"
  | "processing" => "bg-blue-500 text-blue-50"
  | "succeeded" => "bg-green-500 text-green-50"
  | "completed" => "bg-green-500 text-green-50"
  | "failed" => "bg-red-500 text-red-50"
  | "canceled" => "bg-red-500 text-red-50"
  | _ => "bg-gray-500 text-gray-50"

/-- A four-byte test file, used as the concrete input of the witnesses. -/
def fileA : FileModel :=
  { bytes := [1, 2, 3, 4], name := "a.png", type := "image/png", lastModified := 0 }

/-- A browser environment whose decode yields a 4000×2000 bitmap and whose
encoder produces a five-byte blob above quality 0.7 and a four-byte blob
at or below it. -/
def envA : ImageEnv :=
  { readOk := true, decode := some ⟨4000, 2000⟩, ctxOk := true,
    encode := fun c => if c.quality > 0.7 then some ⟨[9, 9, 9, 9, 9]⟩ else some ⟨[8, 8, 8, 8]⟩ }

/-- A browser environment whose image decode fails (`img.onerror`). -/
def envFailDecode : ImageEnv :=
  { readOk := true, decode := none, ctxOk := true, encode := fun _ => none }

/-- A size budget of exactly three bytes:
`(3/1048576) * 1024 * 1024 = 3`. -/
def tinyBudget : ℚ := 3 / 1048576

/-- A status snapshot carrying both a usable output and a non-empty error
field. -/
def snapBoth : StatusSnapshot :=
  { status := "processing", message := "m",
    output := some (.single "http://x/img.png"), error := some "boom" }

/-- A second four-byte test file, whose decode the batch witness makes
fail. -/
def fileB : FileModel :=
  { bytes := [5, 5, 5, 5], name := "b.png", type := "image/png", lastModified := 0 }

/-- A per-file browser environment: decode fails for `fileB`, succeeds
otherwise. -/
def envOf (f : FileModel) : ImageEnv :=
  if f.name = "b.png" then envFailDecode else envA

/-- Unfolds one `compressImage` run, under the hypotheses that the input
is over budget, the reader, decoder and context succeed, and the first
encode yields `blob`, down to the pass-2 decision. -/
theorem compressImageRun_pass1 (env : ImageEnv) (now : Nat) (file : FileModel)
    (maxWidth maxHeight quality maxSizeMB : ℚ) (img : Bitmap) (blob : Blob)
    (hbig : ¬ ((file.size : ℚ) ≤ maxSizeMB * 1024 * 1024))
    (hread : env.readOk = true)
    (hdec : env.decode = some img)
    (hctx : env.ctxOk = true)
    (henc1 : env.encode (pass1Call file img maxWidth maxHeight quality) = some blob) :
    compressImageRun env now file maxWidth maxHeight quality maxSizeMB =
      if (blob.size : ℚ) > maxSizeMB * 1024 * 1024 ∧ quality > 0.3 then
        match env.encode (pass2Call file img maxWidth maxHeight quality) with
        | none =>
          (.ok ⟨blob.bytes, file.name, mimeOf file, now⟩,
           ⟨true, true, [pass1Call file img maxWidth maxHeight quality,
                         pass2Call file img maxWidth maxHeight quality]⟩)
        | some smallerBlob =>
          (.ok ⟨smallerBlob.bytes, file.name, mimeOf file, now⟩,
           ⟨true, true, [pass1Call file img maxWidth maxHeight quality,
                         pass2Call file img maxWidth maxHeight quality]⟩)
      else
        (.ok ⟨blob.bytes, file.name, mimeOf file, now⟩,
         ⟨true, true, [pass1Call file img maxWidth maxHeight quality]⟩) := by
  unfold compressImageRun
  rw [if_neg hbig, hread, hdec]
  simp only [Bool.true_eq_false, if_false]
  rw [hctx]
  simp only [Bool.true_eq_false, if_false]
  rw [henc1]

/-- Every `compressImage` run performs at most two encode attempts. -/
theorem compressTrace_encodes_le_two (env : ImageEnv) (now : Nat) (file : FileModel)
    (maxWidth maxHeight quality maxSizeMB : ℚ) :
    (compressTrace env now file maxWidth maxHeight quality maxSizeMB).encodes.length ≤ 2 := by
  unfold compressTrace compressImageRun
  repeat' split
  all_goals simp

/-- C3: an asset whose byte length is at or below `maxSizeMB * 1024 * 1024`
is returned unchanged by `compressImage` — the same `File`, byte for byte —
with no read, no decode and no encode performed. -/
theorem compress_fast_path_identity (env : ImageEnv) (now : Nat) (file : FileModel)
    (maxWidth maxHeight quality maxSizeMB : ℚ)
    (hsmall : (file.size : ℚ) ≤ maxSizeMB * 1024 * 1024) :
    compressImage env now file maxWidth maxHeight quality maxSizeMB = .ok file ∧
    compressTrace env now file maxWidth maxHeight quality maxSizeMB = ⟨false, false, []⟩ := by
  unfold compressImage compressTrace compressImageRun
  rw [if_pos hsmall]
  exact ⟨rfl, rfl⟩

/-- C3 witness: a four-byte file under a 1 MB budget comes back unchanged
with an empty trace. -/
theorem compress_fast_path_identity_witness :
    ((fileA.size : ℚ) ≤ 1 * 1024 * 1024) ∧
    (compressImage envA 0 fileA 1920 1920 0.8 1 = .ok fileA ∧
     compressTrace envA 0 fileA 1920 1920 0.8 1 = ⟨false, false, []⟩) :=
  ⟨by norm_num [fileA, FileModel.size],
   compress_fast_path_identity envA 0 fileA 1920 1920 0.8 1 (by norm_num [fileA, FileModel.size])⟩

/-- C9: the fast path is decided before any decode — an asset within the
byte budget is returned unchanged even when the decoder would report pixel
dimensions exceeding `maxWidth`/`maxHeight`, so the dimension bound is only
ever enforced on assets over the byte budget. -/
theorem fast_path_before_decode (env : ImageEnv) (now : Nat) (file : FileModel)
    (maxWidth maxHeight quality maxSizeMB : ℚ) (img : Bitmap)
    (hdec : env.decode = some img)
    (hdims : img.width > maxWidth ∨ img.height > maxHeight)
    (hsmall : (file.size : ℚ) ≤ maxSizeMB * 1024 * 1024) :
    compressImageRun env now file maxWidth maxHeight quality maxSizeMB =
      (.ok file, ⟨false, false, []⟩) := by
  unfold compressImageRun
  rw [if_pos hsmall]

/-- C9 witness: the four-byte file whose decode would report 4000×2000
pixels, under bounds 1920×1920 and a 1 MB budget, is returned untouched. -/
theorem fast_path_before_decode_witness :
    (envA.decode = some ⟨4000, 2000⟩ ∧
     ((4000 : ℚ) > 1920 ∨ (2000 : ℚ) > 1920) ∧
     ((fileA.size : ℚ) ≤ 1 * 1024 * 1024)) ∧
    compressImageRun envA 0 fileA 1920 1920 0.8 1 = (.ok fileA, ⟨false, false, []⟩) :=
  ⟨⟨rfl, by norm_num, by norm_num [fileA, FileModel.size]⟩,
   fast_path_before_decode envA 0 fileA 1920 1920 0.8 1 ⟨4000, 2000⟩ rfl
     (by norm_num) (by norm_num [fileA, FileModel.size])⟩

/-- C4: when a decoded bitmap exceeds either bound, both dimensions are
scaled by the single uniform factor `min (maxWidth/width)
(maxHeight/height)` (so the aspect ratio is preserved:
`newWidth * height = newHeight * width`); within-bounds bitmaps are left
unchanged; 4000×2000 under bounds 1920×1920 becomes 1920×960; and every
encode of the run uses exactly these dimensions. -/
theorem compress_resize_uniform_scale (env : ImageEnv) (now : Nat) (file : FileModel)
    (width height maxWidth maxHeight quality maxSizeMB : ℚ)
    (hdec : env.decode = some ⟨width, height⟩) :
    ((width > maxWidth ∨ height > maxHeight) →
       resizeDims width height maxWidth maxHeight =
         (width * ratMin (maxWidth / width) (maxHeight / height),
          height * ratMin (maxWidth / width) (maxHeight / height))) ∧
    (¬ (width > maxWidth ∨ height > maxHeight) →
       resizeDims width height maxWidth maxHeight = (width, height)) ∧
    (resizeDims width height maxWidth maxHeight).1 * height =
      (resizeDims width height maxWidth maxHeight).2 * width ∧
    resizeDims 4000 2000 1920 1920 = (1920, 960) ∧
    (∀ c ∈ (compressTrace env now file maxWidth maxHeight quality maxSizeMB).encodes,
       (c.width, c.height) = resizeDims width height maxWidth maxHeight) := by
  refine ⟨?_, ?_, ?_, ?_, ?_⟩
  · intro h
    unfold resizeDims
    rw [if_pos h]
  · intro h
    unfold resizeDims
    rw [if_neg h]
  · unfold resizeDims
    split
    · ring
    · ring
  · norm_num [resizeDims, ratMin]
  · unfold compressTrace compressImageRun
    simp only [hdec]
    repeat' split
    all_goals simp [pass1Call, pass2Call]

/-- C4 witness: instantiated at the 4000×2000 decode environment, a
four-byte file and a three-byte budget. -/
theorem compress_resize_uniform_scale_witness :
    envA.decode = some ⟨4000, 2000⟩ ∧
    ((((4000 : ℚ) > 1920 ∨ (2000 : ℚ) > 1920) →
       resizeDims 4000 2000 1920 1920 =
         (4000 * ratMin (1920 / 4000) (1920 / 2000),
          2000 * ratMin (1920 / 4000) (1920 / 2000))) ∧
     (¬ ((4000 : ℚ) > 1920 ∨ (2000 : ℚ) > 1920) →
       resizeDims 4000 2000 1920 1920 = (4000, 2000)) ∧
     (resizeDims 4000 2000 1920 1920).1 * 2000 =
       (resizeDims 4000 2000 1920 1920).2 * 4000 ∧
     resizeDims 4000 2000 1920 1920 = (1920, 960) ∧
     (∀ c ∈ (compressTrace envA 0 fileA 1920 1920 0.8 tinyBudget).encodes,
        (c.width, c.height) = resizeDims 4000 2000 1920 1920)) :=
  ⟨rfl, compress_resize_uniform_scale envA 0 fileA 4000 2000 1920 1920 0.8 tinyBudget rfl⟩

/-- C2: for an over-budget input whose pass-1 encode yields `blob`, a
second encode happens exactly when `blob` is over budget and
`quality > 0.3`; it runs at `max 0.3 (quality - 0.2)`; its blob is used as
the result regardless of size, with the pass-1 blob used instead when it
yields null; there is never a third attempt, and at `quality = 0.3` no
second attempt at all. -/
theorem compress_second_pass_spec (env : ImageEnv) (now : Nat) (file : FileModel)
    (maxWidth maxHeight quality maxSizeMB : ℚ) (img : Bitmap) (blob : Blob)
    (hbig : ¬ ((file.size : ℚ) ≤ maxSizeMB * 1024 * 1024))
    (hread : env.readOk = true)
    (hdec : env.decode = some img)
    (hctx : env.ctxOk = true)
    (henc1 : env.encode (pass1Call file img maxWidth maxHeight quality) = some blob) :
    ((compressTrace env now file maxWidth maxHeight quality maxSizeMB).encodes =
        [pass1Call file img maxWidth maxHeight quality,
         pass2Call file img maxWidth maxHeight quality] ↔
      ((blob.size : ℚ) > maxSizeMB * 1024 * 1024 ∧ quality > 0.3)) ∧
    (compressTrace env now file maxWidth maxHeight quality maxSizeMB).encodes.length ≤ 2 ∧
    (pass2Call file img maxWidth maxHeight quality).quality = ratMax 0.3 (quality - 0.2) ∧
    (quality = 0.3 →
      (compressTrace env now file maxWidth maxHeight quality maxSizeMB).encodes =
        [pass1Call file img maxWidth maxHeight quality]) ∧
    ((blob.size : ℚ) > maxSizeMB * 1024 * 1024 → quality > 0.3 →
      ∀ smallerBlob, env.encode (pass2Call file img maxWidth maxHeight quality) = some smallerBlob →
        compressImage env now file maxWidth maxHeight quality maxSizeMB =
          .ok ⟨smallerBlob.bytes, file.name, mimeOf file, now⟩) ∧
    ((blob.size : ℚ) > maxSizeMB * 1024 * 1024 → quality > 0.3 →
      env.encode (pass2Call file img maxWidth maxHeight quality) = none →
      compressImage env now file maxWidth maxHeight quality maxSizeMB =
        .ok ⟨blob.bytes, file.name, mimeOf file, now⟩) ∧
    (¬ ((blob.size : ℚ) > maxSizeMB * 1024 * 1024 ∧ quality > 0.3) →
      compressImage env now file maxWidth maxHeight quality maxSizeMB =
        .ok ⟨blob.bytes, file.name, mimeOf file, now⟩ ∧
      (compressTrace env now file maxWidth maxHeight quality maxSizeMB).encodes =
        [pass1Call file img maxWidth maxHeight quality]) := by
  have hrun := compressImageRun_pass1 env now file maxWidth maxHeight quality maxSizeMB
    img blob hbig hread hdec hctx henc1
  unfold compressImage compressTrace
  rw [hrun]
  by_cases hcond : (blob.size : ℚ) > maxSizeMB * 1024 * 1024 ∧ quality > 0.3
  · rw [if_pos hcond]
    have hq3 : ¬ quality = 0.3 := by
      intro hq
      exact absurd (hq ▸ hcond.2) (lt_irrefl _)
    cases h2 : env.encode (pass2Call file img maxWidth maxHeight quality) with
    | none =>
      refine ⟨by simp [hcond], by simp, rfl, fun hq => absurd hq hq3, ?_, ?_,
        fun hn => absurd hcond hn⟩
      · intro _ _ sb hsb
        cases hsb
      · intro _ _ _
        exact rfl
    | some b2 =>
      refine ⟨by simp [hcond], by simp, rfl, fun hq => absurd hq hq3, ?_, ?_,
        fun hn => absurd hcond hn⟩
      · intro _ _ sb hsb
        injection hsb with hb
        subst hb
        exact rfl
      · intro _ _ hnone
        cases hnone
  · rw [if_neg hcond]
    refine ⟨by simp [hcond], by simp, rfl, fun _ => rfl, ?_, ?_, fun _ => ⟨rfl, rfl⟩⟩
    · intro hs hq _ _
      exact absurd ⟨hs, hq⟩ hcond
    · intro hs hq _
      exact absurd ⟨hs, hq⟩ hcond

/-- C2 witness: the four-byte file under the three-byte budget at quality
0.8, in the environment whose pass-1 blob has five bytes. -/
theorem compress_second_pass_spec_witness :
    (¬ ((fileA.size : ℚ) ≤ tinyBudget * 1024 * 1024) ∧
     envA.readOk = true ∧
     envA.decode = some ⟨4000, 2000⟩ ∧
     envA.ctxOk = true ∧
     envA.encode (pass1Call fileA ⟨4000, 2000⟩ 1920 1920 0.8) = some ⟨[9, 9, 9, 9, 9]⟩) ∧
    (((compressTrace envA 0 fileA 1920 1920 0.8 tinyBudget).encodes =
        [pass1Call fileA ⟨4000, 2000⟩ 1920 1920 0.8,
         pass2Call fileA ⟨4000, 2000⟩ 1920 1920 0.8] ↔
      (((⟨[9, 9, 9, 9, 9]⟩ : Blob).size : ℚ) > tinyBudget * 1024 * 1024 ∧ (0.8 : ℚ) > 0.3)) ∧
     (compressTrace envA 0 fileA 1920 1920 0.8 tinyBudget).encodes.length ≤ 2 ∧
     (pass2Call fileA ⟨4000, 2000⟩ 1920 1920 0.8).quality = ratMax 0.3 (0.8 - 0.2) ∧
     ((0.8 : ℚ) = 0.3 →
       (compressTrace envA 0 fileA 1920 1920 0.8 tinyBudget).encodes =
         [pass1Call fileA ⟨4000, 2000⟩ 1920 1920 0.8]) ∧
     (((⟨[9, 9, 9, 9, 9]⟩ : Blob).size : ℚ) > tinyBudget * 1024 * 1024 → (0.8 : ℚ) > 0.3 →
       ∀ smallerBlob, envA.encode (pass2Call fileA ⟨4000, 2000⟩ 1920 1920 0.8) = some smallerBlob →
         compressImage envA 0 fileA 1920 1920 0.8 tinyBudget =
           .ok ⟨smallerBlob.bytes, fileA.name, mimeOf fileA, 0⟩) ∧
     (((⟨[9, 9, 9, 9, 9]⟩ : Blob).size : ℚ) > tinyBudget * 1024 * 1024 → (0.8 : ℚ) > 0.3 →
       envA.encode (pass2Call fileA ⟨4000, 2000⟩ 1920 1920 0.8) = none →
       compressImage envA 0 fileA 1920 1920 0.8 tinyBudget =
         .ok ⟨(⟨[9, 9, 9, 9, 9]⟩ : Blob).bytes, fileA.name, mimeOf fileA, 0⟩) ∧
     (¬ ((((⟨[9, 9, 9, 9, 9]⟩ : Blob).size : ℚ) > tinyBudget * 1024 * 1024 ∧ (0.8 : ℚ) > 0.3)) →
       compressImage envA 0 fileA 1920 1920 0.8 tinyBudget =
         .ok ⟨(⟨[9, 9, 9, 9, 9]⟩ : Blob).bytes, fileA.name, mimeOf fileA, 0⟩ ∧
       (compressTrace envA 0 fileA 1920 1920 0.8 tinyBudget).encodes =
         [pass1Call fileA ⟨4000, 2000⟩ 1920 1920 0.8])) :=
  ⟨⟨by norm_num [fileA, FileModel.size, tinyBudget], rfl, rfl, rfl,
     by norm_num [envA, pass1Call]⟩,
   compress_second_pass_spec envA 0 fileA 1920 1920 0.8 tinyBudget ⟨4000, 2000⟩
     ⟨[9, 9, 9, 9, 9]⟩ (by norm_num [fileA, FileModel.size, tinyBudget]) rfl rfl rfl
     (by norm_num [envA, pass1Call])⟩

/-- C1 counterexample: at quality 0.8 and a three-byte budget, both encode
attempts (at 0.8 and 0.6) stay over budget, the returned file still
exceeds the budget, and yet the 0.3 quality floor was never reached by any
encode attempt — refuting the claim that over-budget output implies the
floor was reached. -/
theorem compress_size_invariant_counterexample :
    compressImage envA 0 fileA 1920 1920 0.8 tinyBudget =
      .ok ⟨[8, 8, 8, 8], "a.png", "image/png", 0⟩ ∧
    ¬ (((⟨[8, 8, 8, 8], "a.png", "image/png", 0⟩ : FileModel).size : ℚ) ≤
        tinyBudget * 1024 * 1024) ∧
    (0.3 : ℚ) ∉
      ((compressTrace envA 0 fileA 1920 1920 0.8 tinyBudget).encodes.map EncodeCall.quality) ∧
    0 < (0.8 : ℚ) ∧ (0.8 : ℚ) ≤ 1 ∧ 0 < tinyBudget := by
  refine ⟨?_, ?_, ?_, by norm_num, by norm_num, by norm_num [tinyBudget]⟩
  · norm_num [compressImage, compressImageRun, resizeDims, ratMin, ratMax, pass1Call,
      pass2Call, mimeOf, FileModel.size, Blob.size, fileA, envA, tinyBudget]
    decide
  · norm_num [FileModel.size, tinyBudget]
  · norm_num [compressTrace, compressImageRun, resizeDims, ratMin, ratMax, pass1Call,
      pass2Call, mimeOf, FileModel.size, Blob.size, fileA, envA, tinyBudget]

/-- C1 (amended): a compressed result can only exceed the byte budget when
the input itself was over budget and the pass-1 encode already produced an
over-budget blob; the returned bytes are then the best-effort outcome —
the pass-2 blob when one was produced (`quality > 0.3`), otherwise the
pass-1 blob — rather than an error, and at most two encode attempts were
made. -/
theorem compress_size_best_effort (env : ImageEnv) (now : Nat) (file : FileModel)
    (maxWidth maxHeight quality maxSizeMB : ℚ) (out : FileModel)
    (hq0 : 0 < quality) (hq1 : quality ≤ 1) (hmb : 0 < maxSizeMB)
    (hok : compressImage env now file maxWidth maxHeight quality maxSizeMB = .ok out)
    (hover : ¬ ((out.size : ℚ) ≤ maxSizeMB * 1024 * 1024)) :
    ¬ ((file.size : ℚ) ≤ maxSizeMB * 1024 * 1024) ∧
    (compressTrace env now file maxWidth maxHeight quality maxSizeMB).encodes.length ≤ 2 ∧
    ∃ img blob1,
      env.decode = some img ∧ env.readOk = true ∧ env.ctxOk = true ∧
      env.encode (pass1Call file img maxWidth maxHeight quality) = some blob1 ∧
      ¬ ((blob1.size : ℚ) ≤ maxSizeMB * 1024 * 1024) ∧
      (¬ quality > 0.3 → out.bytes = blob1.bytes) ∧
      (quality > 0.3 →
        (env.encode (pass2Call file img maxWidth maxHeight quality) = none ∧
           out.bytes = blob1.bytes) ∨
        (∃ b2, env.encode (pass2Call file img maxWidth maxHeight quality) = some b2 ∧
           out.bytes = b2.bytes)) := by
  unfold compressImage compressImageRun at hok
  split at hok
  next hsmall =>
    exfalso
    have hok2 : Except.ok (ε := String) file = Except.ok out := hok
    injection hok2 with h
    subst h
    exact hover hsmall
  next hsmall =>
    split at hok
    next => simp at hok
    next hread =>
      have hr : env.readOk = true := by
        cases henv : env.readOk
        · exact absurd henv hread
        · rfl
      split at hok
      next => simp at hok
      next img heqd =>
        split at hok
        next => simp at hok
        next hctxf =>
          have hc : env.ctxOk = true := by
            cases henv : env.ctxOk
            · exact absurd henv hctxf
            · rfl
          split at hok
          next => simp at hok
          next blob heq1 =>
            refine ⟨hsmall,
              compressTrace_encodes_le_two env now file maxWidth maxHeight quality maxSizeMB,
              img, blob, heqd, hr, hc, heq1, ?_⟩
            split at hok
            next hcond =>
              split at hok
              next heq2 =>
                have hok2 : Except.ok (ε := String)
                    (⟨blob.bytes, file.name, mimeOf file, now⟩ : FileModel) =
                      Except.ok out := hok
                injection hok2 with h
                have hbytes : out.bytes = blob.bytes := by rw [← h]
                exact ⟨not_le.mpr hcond.1, fun hq => absurd hcond.2 hq,
                  fun _ => Or.inl ⟨heq2, hbytes⟩⟩
              next b2 heq2 =>
                have hok2 : Except.ok (ε := String)
                    (⟨b2.bytes, file.name, mimeOf file, now⟩ : FileModel) =
                      Except.ok out := hok
                injection hok2 with h
                have hbytes : out.bytes = b2.bytes := by rw [← h]
                exact ⟨not_le.mpr hcond.1, fun hq => absurd hcond.2 hq,
                  fun _ => Or.inr ⟨b2, heq2, hbytes⟩⟩
            next hcond =>
              have hok2 : Except.ok (ε := String)
                  (⟨blob.bytes, file.name, mimeOf file, now⟩ : FileModel) =
                    Except.ok out := hok
              injection hok2 with h
              have hbytes : out.bytes = blob.bytes := by rw [← h]
              have hsz : (out.size : ℚ) = (blob.size : ℚ) := by
                unfold FileModel.size Blob.size
                rw [hbytes]
              have hblob : ¬ ((blob.size : ℚ) ≤ maxSizeMB * 1024 * 1024) := by
                intro hle
                exact hover (by rw [hsz]; exact hle)
              refine ⟨hblob, fun _ => hbytes, ?_⟩
              intro hq
              exact absurd (not_lt.mp (fun hA => hcond ⟨hA, hq⟩)) hblob

/-- C1 (amended) witness: the quality-0.8, three-byte-budget run whose
result has four bytes. -/
theorem compress_size_best_effort_witness :
    (0 < (0.8 : ℚ) ∧ (0.8 : ℚ) ≤ 1 ∧ 0 < tinyBudget ∧
     compressImage envA 0 fileA 1920 1920 0.8 tinyBudget =
       .ok ⟨[8, 8, 8, 8], "a.png", "image/png", 0⟩ ∧
     ¬ (((⟨[8, 8, 8, 8], "a.png", "image/png", 0⟩ : FileModel).size : ℚ) ≤
         tinyBudget * 1024 * 1024)) ∧
    (¬ ((fileA.size : ℚ) ≤ tinyBudget * 1024 * 1024) ∧
     (compressTrace envA 0 fileA 1920 1920 0.8 tinyBudget).encodes.length ≤ 2 ∧
     ∃ img blob1,
       envA.decode = some img ∧ envA.readOk = true ∧ envA.ctxOk = true ∧
       envA.encode (pass1Call fileA img 1920 1920 0.8) = some blob1 ∧
       ¬ ((blob1.size : ℚ) ≤ tinyBudget * 1024 * 1024) ∧
       (¬ (0.8 : ℚ) > 0.3 →
         (⟨[8, 8, 8, 8], "a.png", "image/png", 0⟩ : FileModel).bytes = blob1.bytes) ∧
       ((0.8 : ℚ) > 0.3 →
         (envA.encode (pass2Call fileA img 1920 1920 0.8) = none ∧
            (⟨[8, 8, 8, 8], "a.png", "image/png", 0⟩ : FileModel).bytes = blob1.bytes) ∨
         (∃ b2, envA.encode (pass2Call fileA img 1920 1920 0.8) = some b2 ∧
            (⟨[8, 8, 8, 8], "a.png", "image/png", 0⟩ : FileModel).bytes = b2.bytes))) :=
  ⟨⟨by norm_num, by norm_num, by norm_num [tinyBudget],
    by
      norm_num [compressImage, compressImageRun, resizeDims, ratMin, ratMax, pass1Call,
        pass2Call, mimeOf, FileModel.size, Blob.size, fileA, envA, tinyBudget]
      decide,
    by norm_num [FileModel.size, tinyBudget]⟩,
   compress_size_best_effort envA 0 fileA 1920 1920 0.8 tinyBudget
     ⟨[8, 8, 8, 8], "a.png", "image/png", 0⟩ (by norm_num) (by norm_num)
     (by norm_num [tinyBudget])
     (by
       norm_num [compressImage, compressImageRun, resizeDims, ratMin, ratMax, pass1Call,
         pass2Call, mimeOf, FileModel.size, Blob.size, fileA, envA, tinyBudget]
       decide)
     (by norm_num [FileModel.size, tinyBudget])⟩

/-- Unfolds `compressImages` on a cons cell: the head is compressed first
and its failure short-circuits the whole batch. -/
theorem compressImages_cons (env : FileModel → ImageEnv) (now : Nat) (f : FileModel)
    (fs : List FileModel) (maxWidth maxHeight quality maxSizeMB : ℚ) :
    compressImages env now (f :: fs) maxWidth maxHeight quality maxSizeMB =
      match compressImage (env f) now f maxWidth maxHeight quality maxSizeMB with
      | .error e => .error e
      | .ok out =>
        match compressImages env now fs maxWidth maxHeight quality maxSizeMB with
        | .error e => .error e
        | .ok outs => .ok (out :: outs) := by
  unfold compressImages
  rw [List.mapM_cons]
  cases compressImage (env f) now f maxWidth maxHeight quality maxSizeMB with
  | error e => rfl
  | ok out =>
    cases fs.mapM
        (fun file => compressImage (env file) now file maxWidth maxHeight quality maxSizeMB) with
    | error e => rfl
    | ok outs => rfl

/-- A batch in which every file compresses successfully yields a result
list. -/
theorem compressImages_all_ok (env : FileModel → ImageEnv) (now : Nat)
    (maxWidth maxHeight quality maxSizeMB : ℚ) :
    ∀ files : List FileModel,
      (∀ f ∈ files,
        (compressImage (env f) now f maxWidth maxHeight quality maxSizeMB).isOk = true) →
      ∃ outs, compressImages env now files maxWidth maxHeight quality maxSizeMB = .ok outs
  | [], _ => ⟨[], rfl⟩
  | f :: fs, hall => by
    have hf := hall f (List.mem_cons_self f fs)
    obtain ⟨o, ho⟩ : ∃ o, compressImage (env f) now f maxWidth maxHeight quality maxSizeMB = .ok o := by
      cases hcf : compressImage (env f) now f maxWidth maxHeight quality maxSizeMB with
      | error e =>
        rw [hcf] at hf
        cases hf
      | ok o => exact ⟨o, rfl⟩
    obtain ⟨outs, houts⟩ := compressImages_all_ok env now maxWidth maxHeight quality maxSizeMB fs
      (fun g hg => hall g (List.mem_cons_of_mem f hg))
    refine ⟨o :: outs, ?_⟩
    rw [compressImages_cons, ho, houts]

/-- A successful batch pairs each input with its own compression result,
in order. -/
theorem compressImages_ok_forall (env : FileModel → ImageEnv) (now : Nat)
    (maxWidth maxHeight quality maxSizeMB : ℚ) :
    ∀ (files outs : List FileModel),
      compressImages env now files maxWidth maxHeight quality maxSizeMB = .ok outs →
      List.Forall₂
        (fun f out => compressImage (env f) now f maxWidth maxHeight quality maxSizeMB = .ok out)
        files outs
  | [], outs, h => by
    have h2 : Except.ok (ε := String) ([] : List FileModel) = .ok outs := h
    injection h2 with h3
    subst h3
    exact List.Forall₂.nil
  | f :: fs, outs, h => by
    rw [compressImages_cons] at h
    cases hcf : compressImage (env f) now f maxWidth maxHeight quality maxSizeMB with
    | error e =>
      rw [hcf] at h
      cases h
    | ok o =>
      rw [hcf] at h
      cases hfs : compressImages env now fs maxWidth maxHeight quality maxSizeMB with
      | error e =>
        rw [hfs] at h
        cases h
      | ok os =>
        rw [hfs] at h
        injection h with h2
        subst h2
        exact List.Forall₂.cons hcf
          (compressImages_ok_forall env now maxWidth maxHeight quality maxSizeMB fs os hfs)

/-- The first failing item's error is the whole batch's error. -/
theorem compressImages_first_error (env : FileModel → ImageEnv) (now : Nat)
    (maxWidth maxHeight quality maxSizeMB : ℚ) :
    ∀ (pre : List FileModel) (f : FileModel) (post : List FileModel) (e : String),
      (∀ g ∈ pre,
        (compressImage (env g) now g maxWidth maxHeight quality maxSizeMB).isOk = true) →
      compressImage (env f) now f maxWidth maxHeight quality maxSizeMB = .error e →
      compressImages env now (pre ++ f :: post) maxWidth maxHeight quality maxSizeMB = .error e
  | [], f, post, e, _, hf => by
    rw [List.nil_append, compressImages_cons, hf]
  | g :: pre, f, post, e, hpre, hf => by
    have hg := hpre g (List.mem_cons_self g pre)
    obtain ⟨o, ho⟩ : ∃ o, compressImage (env g) now g maxWidth maxHeight quality maxSizeMB = .ok o := by
      cases hcg : compressImage (env g) now g maxWidth maxHeight quality maxSizeMB with
      | error e2 =>
        rw [hcg] at hg
        cases hg
      | ok o => exact ⟨o, rfl⟩
    have ih := compressImages_first_error env now maxWidth maxHeight quality maxSizeMB pre f post e
      (fun g2 hg2 => hpre g2 (List.mem_cons_of_mem g hg2)) hf
    rw [List.cons_append, compressImages_cons, ho, ih]

/-- C8: `compressImages` applies `compressImage` to each file
independently with the same options; when every item succeeds it resolves
with the in-order list of per-item results, a successful batch always
pairs inputs with their own results in order, and when an item fails after
an all-successful prefix the whole batch rejects with exactly that item's
error — no partial result list exists. -/
theorem compressImages_all_or_nothing (env : FileModel → ImageEnv) (now : Nat)
    (files : List FileModel) (maxWidth maxHeight quality maxSizeMB : ℚ) :
    ((∀ f ∈ files,
        (compressImage (env f) now f maxWidth maxHeight quality maxSizeMB).isOk = true) →
      ∃ outs, compressImages env now files maxWidth maxHeight quality maxSizeMB = .ok outs ∧
        List.Forall₂
          (fun f out => compressImage (env f) now f maxWidth maxHeight quality maxSizeMB = .ok out)
          files outs) ∧
    (∀ outs, compressImages env now files maxWidth maxHeight quality maxSizeMB = .ok outs →
      List.Forall₂
        (fun f out => compressImage (env f) now f maxWidth maxHeight quality maxSizeMB = .ok out)
        files outs) ∧
    (∀ (pre : List FileModel) (f : FileModel) (post : List FileModel) (e : String),
      files = pre ++ f :: post →
      (∀ g ∈ pre,
        (compressImage (env g) now g maxWidth maxHeight quality maxSizeMB).isOk = true) →
      compressImage (env f) now f maxWidth maxHeight quality maxSizeMB = .error e →
      compressImages env now files maxWidth maxHeight quality maxSizeMB = .error e) := by
  refine ⟨?_, ?_, ?_⟩
  · intro hall
    obtain ⟨outs, houts⟩ :=
      compressImages_all_ok env now maxWidth maxHeight quality maxSizeMB files hall
    exact ⟨outs, houts,
      compressImages_ok_forall env now maxWidth maxHeight quality maxSizeMB files outs houts⟩
  · intro outs houts
    exact compressImages_ok_forall env now maxWidth maxHeight quality maxSizeMB files outs houts
  · intro pre f post e hsplit hpre hf
    subst hsplit
    exact compressImages_first_error env now maxWidth maxHeight quality maxSizeMB pre f post e hpre hf

/-- C8 witness: in the batch `[fileA, fileB]` under the three-byte budget,
`fileA` compresses but `fileB`'s decode fails, and the whole batch rejects
with `fileB`'s decode error. -/
theorem compressImages_all_or_nothing_witness :
    ([fileA, fileB] = [fileA] ++ fileB :: [] ∧
     (∀ g ∈ [fileA], (compressImage (envOf g) 0 g 1920 1920 0.8 tinyBudget).isOk = true) ∧
     compressImage (envOf fileB) 0 fileB 1920 1920 0.8 tinyBudget =
       .error "Failed to load image") ∧
    compressImages envOf 0 [fileA, fileB] 1920 1920 0.8 tinyBudget =
      .error "Failed to load image" := by
  have henvA : envOf fileA = envA := rfl
  have henvB : envOf fileB = envFailDecode := rfl
  have hpre : ∀ g ∈ [fileA], (compressImage (envOf g) 0 g 1920 1920 0.8 tinyBudget).isOk = true := by
    intro g hg
    rw [List.mem_singleton] at hg
    subst hg
    rw [henvA]
    norm_num [compressImage, compressImageRun, resizeDims, ratMin, ratMax, pass1Call,
      pass2Call, mimeOf, FileModel.size, Blob.size, fileA, envA,
      tinyBudget, Except.isOk, Except.toBool]
  have hf : compressImage (envOf fileB) 0 fileB 1920 1920 0.8 tinyBudget =
      .error "Failed to load image" := by
    rw [henvB]
    norm_num [compressImage, compressImageRun, resizeDims, ratMin, ratMax, pass1Call,
      pass2Call, mimeOf, FileModel.size, Blob.size, fileB, envFailDecode,
      tinyBudget]
  exact ⟨⟨rfl, hpre, hf⟩,
    (compressImages_all_or_nothing envOf 0 [fileA, fileB] 1920 1920 0.8 tinyBudget).2.2
      [fileA] fileB [] "Failed to load image" rfl hpre hf⟩

/-- An inactive session consumes no scripted outcome: no request, no
update. -/
theorem runPollingFrom_inactive (st : PollState) (script : List PollResult)
    (h : st.active = false) :
    runPollingFrom st script = (st, 0, 0) := by
  cases script with
  | nil => rfl
  | cons r rs =>
    simp only [runPollingFrom, h]
    rfl

/-- An active session consumes the head outcome: one request, plus one
update when the head is a response. -/
theorem runPollingFrom_cons_active (st : PollState) (r : PollResult) (rs : List PollResult)
    (h : st.active = true) :
    runPollingFrom st (r :: rs) =
      ((runPollingFrom (stepPoll st r) rs).1,
       (runPollingFrom (stepPoll st r) rs).2.1 + 1,
       (runPollingFrom (stepPoll st r) rs).2.2 +
         (match r with | .response _ => 1 | .failure _ => 0)) := by
  simp only [runPollingFrom, h]
  rfl

/-- Processing one poll outcome from an active session leaves the session
active exactly when the outcome is non-stopping. -/
theorem stepPoll_active (st : PollState) (r : PollResult) (h : st.active = true) :
    (stepPoll st r).active = !(pollStops r) := by
  cases r with
  | failure msg => simp [stepPoll, pollStops]
  | response snap =>
    unfold stepPoll pollStops
    by_cases he : errorTruthy snap.error = true
    · simp [he]
    · by_cases hs : statusTerminal snap.status = true
      · simp [he, hs]
      · simp only [he, hs, h]
        simp [he, hs]
        split <;> rfl

/-- Consuming a non-stopping prefix: each prefix item costs one request
and one update, and the session is still active afterwards. -/
theorem runPollingFrom_consumeClean (pre : List PollResult) :
    ∀ st : PollState, st.active = true → (∀ r ∈ pre, pollStops r = false) →
    ∀ rest : List PollResult,
      (runPollingFrom st (pre ++ rest)).2.1 =
        (runPollingFrom (pre.foldl stepPoll st) rest).2.1 + pre.length ∧
      (runPollingFrom st (pre ++ rest)).2.2 =
        (runPollingFrom (pre.foldl stepPoll st) rest).2.2 + pre.length ∧
      (pre.foldl stepPoll st).active = true := by
  induction pre with
  | nil =>
    intro st hact _ rest
    exact ⟨rfl, rfl, hact⟩
  | cons r rs ih =>
    intro st hact hpre rest
    have hr : pollStops r = false := hpre r (List.mem_cons_self r rs)
    have hact2 : (stepPoll st r).active = true := by
      rw [stepPoll_active st r hact, hr]
      rfl
    obtain ⟨h2, h3, h4⟩ :=
      ih (stepPoll st r) hact2 (fun x hx => hpre x (List.mem_cons_of_mem r hx)) rest
    cases r with
    | failure msg =>
      exact absurd hr (by simp [pollStops])
    | response snap =>
      rw [List.cons_append, runPollingFrom_cons_active st _ _ hact]
      refine ⟨?_, ?_, h4⟩
      · simp only [List.foldl_cons] at h2 ⊢
        rw [h2, List.length_cons]
        omega
      · simp only [List.foldl_cons] at h3 ⊢
        rw [h3, List.length_cons]
        omega

/-- C5: a polling session stops the moment a snapshot is terminal or
carries a non-empty error: over the scripted responses `processing,
processing, succeeded` exactly three requests are issued and the update
callback fires exactly three times, with no fourth request regardless of
what follows; and a response with a non-empty error field ends the session
at that response even when its status is non-terminal. -/
theorem polling_stops_at_terminal_or_error :
    (∀ rest : List PollResult,
      (runPolling (.response (plainSnap "processing") :: .response (plainSnap "processing") ::
          .response (plainSnap "succeeded") :: rest)).2.1 = 3 ∧
      (runPolling (.response (plainSnap "processing") :: .response (plainSnap "processing") ::
          .response (plainSnap "succeeded") :: rest)).2.2 = 3) ∧
    (∀ (pre : List PollResult) (snap : StatusSnapshot) (rest : List PollResult),
      (∀ r ∈ pre, pollStops r = false) → errorTruthy snap.error = true →
      (runPolling (pre ++ .response snap :: rest)).2.1 = pre.length + 1) := by
  constructor
  · intro rest
    have hpre : ∀ r ∈ [PollResult.response (plainSnap "processing"),
        PollResult.response (plainSnap "processing")], pollStops r = false := by decide
    obtain ⟨h2, h3, h4⟩ := runPollingFrom_consumeClean
      [.response (plainSnap "processing"), .response (plainSnap "processing")]
      initPollState rfl hpre (.response (plainSnap "succeeded") :: rest)
    have hstop : pollStops (.response (plainSnap "succeeded")) = true := by decide
    have hact3 : (stepPoll ([PollResult.response (plainSnap "processing"),
        PollResult.response (plainSnap "processing")].foldl stepPoll initPollState)
          (.response (plainSnap "succeeded"))).active = false := by
      rw [stepPoll_active _ _ h4, hstop]
      rfl
    have hmid := runPollingFrom_cons_active
      ([PollResult.response (plainSnap "processing"),
        PollResult.response (plainSnap "processing")].foldl stepPoll initPollState)
      (.response (plainSnap "succeeded")) rest h4
    have hrest := runPollingFrom_inactive _ rest hact3
    constructor
    · show (runPollingFrom initPollState
        ([PollResult.response (plainSnap "processing"),
          PollResult.response (plainSnap "processing")] ++
            .response (plainSnap "succeeded") :: rest)).2.1 = 3
      rw [h2, hmid, hrest]
      rfl
    · show (runPollingFrom initPollState
        ([PollResult.response (plainSnap "processing"),
          PollResult.response (plainSnap "processing")] ++
            .response (plainSnap "succeeded") :: rest)).2.2 = 3
      rw [h3, hmid, hrest]
      rfl
  · intro pre snap rest hpre herr
    obtain ⟨h2, _, h4⟩ := runPollingFrom_consumeClean pre initPollState rfl hpre (.response snap :: rest)
    have hact3 : (stepPoll (pre.foldl stepPoll initPollState) (.response snap)).active = false := by
      rw [stepPoll_active _ _ h4]
      simp [pollStops, herr]
    show (runPollingFrom initPollState (pre ++ .response snap :: rest)).2.1 = pre.length + 1
    rw [h2, runPollingFrom_cons_active _ _ _ h4, runPollingFrom_inactive _ rest hact3]
    show 0 + 1 + pre.length = pre.length + 1
    omega

/-- C5 witness: the three-response script with an empty tail, and a
one-item clean prefix followed by an error-carrying response. -/
theorem polling_stops_at_terminal_or_error_witness :
    ((runPolling [.response (plainSnap "processing"), .response (plainSnap "processing"),
        .response (plainSnap "succeeded")]).2.1 = 3 ∧
     (runPolling [.response (plainSnap "processing"), .response (plainSnap "processing"),
        .response (plainSnap "succeeded")]).2.2 = 3) ∧
    ((∀ r ∈ [PollResult.response (plainSnap "processing")], pollStops r = false) ∧
     errorTruthy (StatusSnapshot.mk "processing" "" none (some "boom")).error = true) ∧
    (runPolling ([PollResult.response (plainSnap "processing")] ++
        .response (StatusSnapshot.mk "processing" "" none (some "boom")) :: [])).2.1 =
      [PollResult.response (plainSnap "processing")].length + 1 :=
  ⟨polling_stops_at_terminal_or_error.1 [],
   ⟨by decide, by decide⟩,
   polling_stops_at_terminal_or_error.2 [PollResult.response (plainSnap "processing")]
     (StatusSnapshot.mk "processing" "" none (some "boom")) [] (by decide) (by decide)⟩

/-- C6 counterexample: a response whose status is `Succeeded` (capital S)
does not stop the session — a second request is still issued — so terminal
tags are not matched case-insensitively by the polling controller. -/
theorem polling_case_insensitive_counterexample :
    (runPolling [.response (plainSnap "Succeeded"), .response (plainSnap "Succeeded")]).2.1 = 2 ∧
    pollStops (.response (plainSnap "Succeeded")) = false ∧
    statusTerminal "Succeeded" = false ∧
    statusTerminal "SUCCEEDED" = false := by decide

/-- C6 (amended): the polling controller compares status tags
case-sensitively — exactly the lowercase strings `succeeded`, `failed`,
`canceled` stop it, and every other value (including other casings of the
terminal tags) is treated as non-terminal so polling continues; only the
`StatusDisplay` badge lowercases the tag before classifying it. -/
theorem polling_case_sensitive_terminal :
    (∀ s : String, statusTerminal s = true ↔ (s = "succeeded" ∨ s = "failed" ∨ s = "canceled")) ∧
    (∀ snap : StatusSnapshot, errorTruthy snap.error = false →
      pollStops (.response snap) = statusTerminal snap.status) ∧
    getStatusColor "SUCCEEDED" = getStatusColor "succeeded" ∧
    getStatusColor "Succeeded" = "bg-green-500 text-green-50" := by
  refine ⟨?_, ?_, by decide, by decide⟩
  · intro s
    simp [statusTerminal, Bool.or_eq_true, beq_iff_eq, or_assoc]
  · intro snap herr
    simp [pollStops, herr]

/-- C6 (amended) witness: instantiated at `SUCCEEDED` and a snapshot with
a null error field and an unrecognized status. -/
theorem polling_case_sensitive_terminal_witness :
    (statusTerminal "SUCCEEDED" = true ↔
      ("SUCCEEDED" = "succeeded" ∨ "SUCCEEDED" = "failed" ∨ "SUCCEEDED" = "canceled")) ∧
    (errorTruthy (plainSnap "weird").error = false ∧
     pollStops (.response (plainSnap "weird")) = statusTerminal (plainSnap "weird").status) ∧
    getStatusColor "SUCCEEDED" = getStatusColor "succeeded" ∧
    getStatusColor "Succeeded" = "bg-green-500 text-green-50" :=
  ⟨polling_case_sensitive_terminal.1 "SUCCEEDED",
   ⟨by decide, polling_case_sensitive_terminal.2.1 (plainSnap "weird") (by decide)⟩,
   polling_case_sensitive_terminal.2.2.1,
   polling_case_sensitive_terminal.2.2.2⟩

/-- C10: one poll step on a response carrying both a usable output and a
non-empty error records the output into `generatedImages` and then
terminates the session with the error set — the output is not lost. -/
theorem output_recorded_before_error_stop (st : PollState) (snap : StatusSnapshot)
    (hout : outputTruthy snap.output = true)
    (herr : errorTruthy snap.error = true) :
    stepPoll st (.response snap) =
      { status := snap.status, statusMessage := snap.message,
        generatedImages := snap.output, error := snap.error,
        isGenerating := false, active := false } := by
  unfold stepPoll
  simp [hout, herr]

/-- C10 witness: the fresh session state and the snapshot that carries
both an output URL and an error message. -/
theorem output_recorded_before_error_stop_witness :
    (outputTruthy snapBoth.output = true ∧ errorTruthy snapBoth.error = true) ∧
    stepPoll initPollState (.response snapBoth) =
      { status := snapBoth.status, statusMessage := snapBoth.message,
        generatedImages := snapBoth.output, error := snapBoth.error,
        isGenerating := false, active := false } :=
  ⟨⟨by decide, by decide⟩,
   output_recorded_before_error_stop initPollState snapBoth (by decide) (by decide)⟩

/-- C7 counterexample: on a non-2xx response whose body is absent or
unparseable, both endpoints raise the fixed message `Unknown error`, not a
message built from the HTTP status code. -/
theorem http_error_fallback_counterexample :
    checkJobStatusResult ⟨false, 500, none⟩ (plainSnap "processing") = .error "Unknown error" ∧
    generateMatchingSetResult ⟨false, 500, none⟩ ⟨"", "", "", ""⟩ = .error "Unknown error" ∧
    "Unknown error" ≠ "HTTP error! status: 500" :=
  ⟨rfl, rfl, by decide⟩

/-- C7 (amended): on a non-2xx response both endpoints throw the same
message: the body's `message` field when the body parses as JSON with a
non-empty one; the fixed string `Unknown error` when the body is absent or
unparseable; and `HTTP error! status: <code>` only when the body parses as
JSON whose `message` field is missing or empty. -/
theorem http_error_message_spec (resp : HttpResponse) (gbody : GenerateResponse)
    (sbody : StatusSnapshot) (hnotok : resp.ok = false) :
    generateMatchingSetResult resp gbody = .error (httpErrorMessage resp) ∧
    checkJobStatusResult resp sbody = .error (httpErrorMessage resp) ∧
    (∀ s, resp.jsonMessage = some (some s) → ¬ s = "" → httpErrorMessage resp = s) ∧
    (resp.jsonMessage = none → httpErrorMessage resp = "Unknown error") ∧
    (resp.jsonMessage = some none →
      httpErrorMessage resp = "HTTP error! status: " ++ toString resp.status) ∧
    (resp.jsonMessage = some (some "") →
      httpErrorMessage resp = "HTTP error! status: " ++ toString resp.status) := by
  refine ⟨?_, ?_, ?_, ?_, ?_, ?_⟩
  · unfold generateMatchingSetResult
    rw [hnotok]
    rfl
  · unfold checkJobStatusResult
    rw [hnotok]
    rfl
  · intro s hs hne
    unfold httpErrorMessage
    rw [hs]
    simp [hne]
  · intro h
    unfold httpErrorMessage
    rw [h]
    rfl
  · intro h
    unfold httpErrorMessage
    rw [h]
  · intro h
    unfold httpErrorMessage
    rw [h]
    rfl

/-- C7 (amended) witness: a 404 response whose body parses with message
`Not found`. -/
theorem http_error_message_spec_witness :
    (HttpResponse.mk false 404 (some (some "Not found"))).ok = false ∧
    (generateMatchingSetResult ⟨false, 404, some (some "Not found")⟩ ⟨"", "", "", ""⟩ =
       .error (httpErrorMessage ⟨false, 404, some (some "Not found")⟩) ∧
     checkJobStatusResult ⟨false, 404, some (some "Not found")⟩ (plainSnap "") =
       .error (httpErrorMessage ⟨false, 404, some (some "Not found")⟩) ∧
     (∀ s, (HttpResponse.mk false 404 (some (some "Not found"))).jsonMessage = some (some s) →
        ¬ s = "" → httpErrorMessage ⟨false, 404, some (some "Not found")⟩ = s) ∧
     ((HttpResponse.mk false 404 (some (some "Not found"))).jsonMessage = none →
        httpErrorMessage ⟨false, 404, some (some "Not found")⟩ = "Unknown error") ∧
     ((HttpResponse.mk false 404 (some (some "Not found"))).jsonMessage = some none →
        httpErrorMessage ⟨false, 404, some (some "Not found")⟩ =
          "HTTP error! status: " ++ toString (HttpResponse.mk false 404 (some (some "Not found"))).status) ∧
     ((HttpResponse.mk false 404 (some (some "Not found"))).jsonMessage = some (some "") →
        httpErrorMessage ⟨false, 404, some (some "Not found")⟩ =
          "HTTP error! status: " ++ toString (HttpResponse.mk false 404 (some (some "Not found"))).status)) :=
  ⟨rfl, http_error_message_spec ⟨false, 404, some (some "Not found")⟩ ⟨"", "", "", ""⟩
    (plainSnap "") rfl⟩
